import Mathlib

/-!
Shallow embedding of `src/app.py` (flipbook downloader).

Conventions of the embedding:
* Byte strings are `List Nat`.
* Network effects are passed in explicitly through an `Env` record:
  `response` is the result of `session.get(config_file_url)` (transport
  error, or status and body text), `probe` is `session.head` on a candidate
  page URL, `fetch` is `session.get` on a resolved page URL (transport
  error, or status and the streamed chunks), `parse` is `json.loads` on the
  extracted payload, `compress` is the PIL decode/resize/re-encode of one
  page (`none` models a raised `ImageDecodeError`), and `convert` is
  `img2pdf.convert` (`none` models a raised assembly error).  The spec
  treats the codecs as opaque `compress`/`assemble` functions, and aiohttp
  and PIL are external collaborators, so they are parameters here.
* The job registry entry (`JOBS[job_id]`) is the `Job` structure; the run of
  `process_book` for one job is modelled as the list of registry snapshots
  after each write performed under `JOBS_LOCK`, in program order
  (`job_trace`).  Cancellation (removal of the record) is not modelled: the
  trace is the lifetime of an uncancelled job.
-/

abbrev Bytes := List Nat

/-- One entry of `config_dict['fliphtml5_pages']` before the loop at
`app.py:102-103` writes the positional index into it: only the `"n"` field
(a list of file-name tokens) is read by the code. -/
structure PageData where
  n : List String
deriving DecidableEq

/-- A page entry after `page_data['p'] = i` (app.py:102-103): the `"n"`
tokens plus the zero-based positional index `p`. -/
structure PageInfo where
  n : List String
  p : Nat
deriving DecidableEq

/-- The parsed `config.js` payload: the page list and `meta.title`
(the only fields `process_book` reads). -/
structure Config where
  fliphtml5_pages : List PageData
  title : String
deriving DecidableEq

/-- One registry record `JOBS[job_id]` (app.py:165-178), minus the
non-data fields (`pause_event`, `start_time`, `started`, `job_id`). -/
structure Job where
  book_name : String
  status : String
  total : Nat
  done : Nat
  pdf_data : Option Bytes
  book_title : String
  paused : Bool
deriving DecidableEq

instance : Inhabited Job :=
  ⟨{ book_name := "", status := "", total := 0, done := 0,
     pdf_data := none, book_title := "", paused := false }⟩

deriving instance DecidableEq for Except

/-- The external world one `process_book` run interacts with. -/
structure Env where
  response : Except Unit (Nat × String)
  parse : String → Option Config
  probe : String → Except Unit Nat
  fetch : String → Except Unit (Nat × List Bytes)
  compress : Bytes → Option Bytes
  convert : List Bytes → Option Bytes

/-- Remove `sep` from the front of `l`, when it is there. -/
def drop_sep : List Char → List Char → Option (List Char)
  | [], l => some l
  | _ :: _, [] => none
  | c :: cs, d :: ds => if c = d then drop_sep cs ds else none

/-- Python `text.split(sep)` on character lists: cut at each non-overlapping
occurrence of `sep`, scanning left to right.  The recursion runs on a fuel
initialised to the input length; every step consumes at least one character
(for the nonempty separators the code uses), so the fuel never runs out. -/
def split_fuel (sep : List Char) : Nat → List Char → List Char → List (List Char)
  | _, [], acc => [acc.reverse]
  | 0, l, acc => [acc.reverse ++ l]
  | fuel + 1, c :: rest, acc =>
    match drop_sep sep (c :: rest) with
    | some rem => acc.reverse :: split_fuel sep fuel rem []
    | none => split_fuel sep fuel rest (c :: acc)

/-- Python `text.split(sep)`. -/
def py_split (text sep : String) : List String :=
  (split_fuel sep.toList text.toList.length text.toList []).map String.mk

/-- Python `s[:-1]`: the string with its final character removed. -/
def drop_last_char (s : String) : String :=
  String.mk s.toList.dropLast

/-- `fetch_json` (app.py:24-29): `json.loads(text.split('= ')[1][:-1])`.
The HTTP status of the response is not inspected; a transport error, a body
without the `'= '` delimiter (the `[1]` raises `IndexError`), or an
unparseable payload all raise, which the caller turns into failure. -/
def fetch_json (parse : String → Option Config)
    (response : Except Unit (Nat × String)) : Except Unit Config :=
  match response with
  | Except.error e => Except.error e
  | Except.ok (_status, text) =>
    match (py_split text "= ").drop 1 with
    | [] => Except.error ()
    | part :: _ =>
      match parse (drop_last_char part) with
      | none => Except.error ()
      | some c => Except.ok c

/-- The `url_options` list of `find_page_url` (app.py:33-40):
`page_num_str = page_info["n"][0]` and `page_index = page_info["p"] + 1`
(the source indexes `n[0]`; manifests always carry a nonempty `n`, so the
empty default is never hit on real inputs). -/
def url_options (book_name : String) (page_info : PageInfo) : List String :=
  let page_num_str := page_info.n.headD ""
  let page_index := page_info.p + 1
  [ "https://online.fliphtml5.com/" ++ book_name ++ "/files/large/" ++ page_num_str,
    "https://online.fliphtml5.com/" ++ book_name ++ "/files/page/"
      ++ toString page_index ++ ".jpg",
    "https://online.fliphtml5.com/" ++ book_name ++ String.mk (page_num_str.toList.drop 1) ]

/-- The probing loop of `find_page_url` (app.py:42-49): HEAD each candidate
in order; status 200 returns the candidate, any other status falls through
to the next, `aiohttp.ClientError` is caught and continues. -/
def probe_loop (probe : String → Except Unit Nat) : List String → Option String
  | [] => none
  | url :: rest =>
    match probe url with
    | Except.ok s => if s = 200 then some url else probe_loop probe rest
    | Except.error _ => probe_loop probe rest

/-- `find_page_url` (app.py:31-49). -/
def find_page_url (probe : String → Except Unit Nat) (book_name : String)
    (page_info : PageInfo) : Option String :=
  probe_loop probe (url_options book_name page_info)

/-- `download_page` (app.py:51-83) for a job whose record (and hence
`pause_event`) is present.  Returns the value handed to `asyncio.gather`
together with whether `JOBS[job_id]["done"] += 1` ran (app.py:74-76); in
the source the increment happens exactly on the path that returns the
`(page_info['p'], bytes)` tuple.  The pause gate only delays chunk reads
(modelled separately as a transition system below), so here the streamed
chunks are concatenated as `image_bytes_buffer` accumulates them. -/
def download_page (env : Env) (book_name : String) (page_info : PageInfo) :
    Option (Nat × Bytes) × Bool :=
  match find_page_url env.probe book_name page_info with
  | none => (none, false)
  | some url =>
    match env.fetch url with
    | Except.error _ => (none, false)
    | Except.ok (status, chunks) =>
      if status = 200 then (some (page_info.p, chunks.flatten), true)
      else (none, false)

/-- The characters the title regex replaces (app.py:109). -/
def bad_chars : List Char := ['<', '>', ':', '"', '/', '\\', '|', '?', '*']

/-- `re.sub(r'[<>:"/\\|?*]', '_', title)` (app.py:109): each character of
the class is replaced by an underscore. -/
def sanitize_title (t : String) : String :=
  String.mk (t.toList.map (fun c => if bad_chars.contains c then '_' else c))

/-- The `for i, page_data in enumerate(fliphtml5_pages): page_data['p'] = i`
loop (app.py:102-103), carrying the running index `k`. -/
def make_pages_from (k : Nat) : List PageData → List PageInfo
  | [] => []
  | pd :: rest => { n := pd.n, p := k } :: make_pages_from (k + 1) rest

/-- Positional index assignment starting at 0 (app.py:102-103). -/
def make_pages (l : List PageData) : List PageInfo :=
  make_pages_from 0 l

/-- Comparison used by `sorted(..., key=lambda x: x[0])` (app.py:115). -/
def pageLE (a b : Nat × Bytes) : Prop := a.1 ≤ b.1

instance : DecidableRel pageLE := fun a b => Nat.decLe a.1 b.1

instance : IsTotal (Nat × Bytes) pageLE := ⟨fun a b => Nat.le_total a.1 b.1⟩

instance : IsTrans (Nat × Bytes) pageLE := ⟨fun _ _ _ => Nat.le_trans⟩

/-- Strict version of the sort key order, used to state that the sorted
output is uniquely determined when page indices are distinct. -/
def pageLT (a b : Nat × Bytes) : Prop := a.1 < b.1

instance : IsAntisymm (Nat × Bytes) pageLT :=
  ⟨fun _ _ h h' => absurd h' (Nat.lt_asymm h)⟩

/-- `sorted(l, key=lambda x: x[0])` (app.py:115); Python's `sorted` is a
stable sort on the key, as is insertion sort. -/
def sort_pages (l : List (Nat × Bytes)) : List (Nat × Bytes) :=
  List.insertionSort pageLE l

/-- The per-page task results in dispatch order: `asyncio.gather(*tasks)`
returns one slot per task in the order the tasks were created
(app.py:112-113), so the gathered list is indexed like the manifest. -/
def results_of (env : Env) (book_name : String) (config : Config) :
    List (Option (Nat × Bytes) × Bool) :=
  (make_pages config.fliphtml5_pages).map (download_page env book_name)

/-- The list bound to `downloaded_pages` at app.py:113 (gather results). -/
def downloaded_of (env : Env) (book_name : String) (config : Config) :
    List (Option (Nat × Bytes)) :=
  (results_of env book_name config).map Prod.fst

/-- How many tasks executed `JOBS[job_id]["done"] += 1`. -/
def increments_of (env : Env) (book_name : String) (config : Config) : Nat :=
  ((results_of env book_name config).filter Prod.snd).length

/-- `sorted([p for p in downloaded_pages if p], key=lambda x: x[0])`
(app.py:115): `None` results dropped, survivors sorted by page index. -/
def sorted_pages_of (env : Env) (book_name : String) (config : Config) :
    List (Nat × Bytes) :=
  sort_pages ((downloaded_of env book_name config).filterMap id)

/-- The compression loop (app.py:126-132): each sorted page is decoded,
resized and re-encoded in order; a decode failure raises out of the loop,
which `Option.mapM`'s `none` models. -/
def compressed_of (env : Env) (book_name : String) (config : Config) :
    Option (List Bytes) :=
  (sorted_pages_of env book_name config).mapM (fun pr => env.compress pr.2)

/-- Registry state after the `"downloading"` write (app.py:88-89). -/
def stage1 (j0 : Job) : Job :=
  { j0 with status := "downloading" }

/-- Registry state after the `total`/`book_title` write (app.py:105-109). -/
def stage2 (j0 : Job) (config : Config) : Job :=
  { stage1 j0 with total := (make_pages config.fliphtml5_pages).length,
                   book_title := sanitize_title config.title }

/-- The registry snapshots produced by the counter increments
(app.py:74-76), one per successful page, in completion order; each
increment only bumps `done`, so the snapshots are the same whatever the
completion order. -/
def incr_states (env : Env) (book_name : String) (config : Config) (j0 : Job) : List Job :=
  (List.range (increments_of env book_name config)).map
    (fun k => { stage2 j0 config with done := (stage2 j0 config).done + (k + 1) })

/-- Registry state once every dispatched fetch has finished. -/
def stage3 (env : Env) (book_name : String) (config : Config) (j0 : Job) : Job :=
  { stage2 j0 config with
      done := (stage2 j0 config).done + increments_of env book_name config }

/-- Registry state after the `"preparing_pdf"` write (app.py:117-122). -/
def stage4 (env : Env) (book_name : String) (config : Config) (j0 : Job) : Job :=
  { stage3 env book_name config j0 with status := "preparing_pdf" }

/-- `process_book` (app.py:85-146), as the list of registry snapshots
written after the job record `j0` was created: the `"downloading"` write
(app.py:89), the failure write on a manifest error (app.py:95-99), the
`total`/`book_title` write (app.py:105-109), one `done`-increment snapshot
per successful page (app.py:74-76), the empty-result failure or the
`"preparing_pdf"` write (app.py:117-122), and finally either the failure
write of the outer `except` (app.py:142-146) or the single write that
stores `pdf_data` and sets `"done"` (app.py:137-141). -/
def process_book (env : Env) (book_name : String) (j0 : Job) : List Job :=
  match fetch_json env.parse env.response with
  | Except.error _ => [stage1 j0, { stage1 j0 with status := "failed" }]
  | Except.ok config =>
    stage1 j0 :: stage2 j0 config ::
      (incr_states env book_name config j0 ++
        (if sorted_pages_of env book_name config = [] then
          [{ stage3 env book_name config j0 with status := "failed" }]
        else
          match compressed_of env book_name config with
          | none =>
            [stage4 env book_name config j0,
             { stage4 env book_name config j0 with status := "failed" }]
          | some compressed =>
            match env.convert compressed with
            | none =>
              [stage4 env book_name config j0,
               { stage4 env book_name config j0 with status := "failed" }]
            | some pdf_bytes =>
              [stage4 env book_name config j0,
               { stage4 env book_name config j0 with
                   status := "done", pdf_data := some pdf_bytes }]))

/-- The record built by `/start` (app.py:165-178). -/
def initial_job (book_name : String) : Job :=
  { book_name := book_name, status := "starting", total := 0, done := 0,
    pdf_data := none, book_title := "book", paused := false }

/-- The lifetime of one uncancelled job: the record at creation followed by
every registry write `process_book` performs for it. -/
def job_trace (env : Env) (book_name : String) : List Job :=
  initial_job book_name :: process_book env book_name (initial_job book_name)

/-- The `/start` route (app.py:155-181): `request.form.get("book_name")` is
`None` when absent, and `if not book_name` also catches the empty string;
otherwise the job record is created and the route answers 200.  No other
validation of `book_name` is performed. -/
def start (book_name : Option String) : Nat × Option Job :=
  match book_name with
  | none => (400, none)
  | some s => if s = "" then (400, none) else (200, some (initial_job s))

/-- Modelled from the spec: the allowed-charset check described for
`sourceId` ("must match a restricted charset (letters/digits only)").
This predicate is the spec's wording, used to compare against the code's
actual validation in `start`. -/
def charset_ok (s : String) : Bool :=
  s.toList.all (fun c => c.isAlphanum)

/-- Responses of the `/download` route (app.py:219-239): either the
`send_file` of the stored bytes with its attachment name, or the shared
plain-text not-available answer. -/
inductive DownloadResponse where
  | file (data : Bytes) (attachment : String)
  | notAvailable (body : String) (code : Nat)
deriving DecidableEq

/-- The `/download` route body (app.py:226-239), given the registry lookup
for the requested id: `job = JOBS.get(job_id, {})`, `pdf_data =
job.get("pdf_data")`, `book_title = job.get("book_title", "download")`;
`if pdf_data:` is Python truthiness, so `None` and empty bytes both fall
through to the 404 text. -/
def download (job : Option Job) : DownloadResponse :=
  let pdf_data : Option Bytes :=
    match job with
    | none => none
    | some j => j.pdf_data
  let book_title : String :=
    match job with
    | none => "download"
    | some j => j.book_title
  match pdf_data with
  | some d =>
    if d = [] then DownloadResponse.notAvailable "PDF not available or job not found." 404
    else DownloadResponse.file d (book_title ++ ".pdf")
  | none => DownloadResponse.notAvailable "PDF not available or job not found." 404

/-!
Fine-grained model of the chunk loop of `download_page` (app.py:67-72)
interleaved with the `/pause` route (app.py:190-199).  The loop alternates
`await pause_event.wait()` and `chunk = await r.content.read(8192)`; the
route runs on the Flask thread and may `clear()` or `set()` the event at
any point, including between the wait returning and the read starting.
-/

/-- Events of the interleaved execution: the fetcher's `pause_event.wait()`
returning, the fetcher reading one chunk, and the `/pause` route clearing
or setting the event. -/
inductive Ev where
  | waitReturn
  | readChunk
  | gateClose
  | gateOpen
deriving DecidableEq

/-- Position of the fetcher inside the loop body: about to execute the
`wait()` on line 68, or past it and about to execute the `read` on
line 69. -/
inductive Pc where
  | atWait
  | atRead
deriving DecidableEq

/-- Shared state: the pause event's flag (`true` = set = open) and the
fetcher's position. -/
structure LoopState where
  gate : Bool
  pc : Pc
deriving DecidableEq

/-- One event. `wait()` can only return while the event is set; the chunk
read is unguarded once the wait has returned; the route's `clear()`/`set()`
are always enabled. -/
def stepEv (s : LoopState) : Ev → Option LoopState
  | Ev.waitReturn =>
    if s.pc = Pc.atWait ∧ s.gate = true then some { s with pc := Pc.atRead } else none
  | Ev.readChunk =>
    if s.pc = Pc.atRead then some { s with pc := Pc.atWait } else none
  | Ev.gateClose => some { s with gate := false }
  | Ev.gateOpen => some { s with gate := true }

/-- Run a sequence of events; `none` means the sequence is not a possible
interleaving. -/
def exec : LoopState → List Ev → Option LoopState
  | s, [] => some s
  | s, e :: es =>
    match stepEv s e with
    | none => none
    | some s' => exec s' es

/-- The state in which each event of a valid interleaving executes. -/
def states_before : LoopState → List Ev → Option (List LoopState)
  | _, [] => some []
  | s, e :: es =>
    match stepEv s e with
    | none => none
    | some s' => (states_before s' es).map (fun l => s :: l)

/-- Initial state of the loop: `pause_event.set()` ran at job creation
(app.py:164), and the fetcher is about to check the gate. -/
def init_loop : LoopState := { gate := true, pc := Pc.atWait }

/-- How many chunk reads the fetcher can still perform without the wait
returning again. -/
def read_budget : Pc → Nat
  | Pc.atWait => 0
  | Pc.atRead => 1

/-!
Concrete environments used to instantiate the theorems below.
-/

/-- Environment whose manifest request raises a transport error and whose
every other interaction fails. -/
def envW : Env :=
  { response := Except.error ()
    parse := fun _ => none
    probe := fun _ => Except.error ()
    fetch := fun _ => Except.error ()
    compress := fun _ => none
    convert := fun _ => none }

/-- A one-page manifest: `fliphtml5_pages = [{"n": ["a.webp"]}]`,
`meta.title = "T"`. -/
def config1 : Config := ⟨[⟨["a.webp"]⟩], "T"⟩

/-- Environment whose manifest parses to `config1` but where every page
probe raises: no page URL resolves. -/
def envZ : Env :=
  { response := Except.ok (200, "var c = 1;")
    parse := fun s => if s = "1" then some config1 else none
    probe := fun _ => Except.error ()
    fetch := fun _ => Except.error ()
    compress := fun _ => none
    convert := fun _ => none }

/-- Environment where the single page of `config1` resolves and downloads,
but decoding it as an image raises. -/
def envV : Env :=
  { response := Except.ok (200, "var c = 1;")
    parse := fun s => if s = "1" then some config1 else none
    probe := fun u =>
      if u = "https://online.fliphtml5.com/bk/files/large/a.webp" then Except.ok 200
      else Except.error ()
    fetch := fun u =>
      if u = "https://online.fliphtml5.com/bk/files/large/a.webp" then Except.ok (200, [[7]])
      else Except.error ()
    compress := fun _ => none
    convert := fun _ => none }

/-- Environment whose manifest request answers with HTTP status 404 but
with a body that still contains the `'= '` delimiter and a payload the
parser accepts; the rest of the pipeline succeeds. -/
def envC7 : Env :=
  { response := Except.ok (404, "var c = 1;")
    parse := fun s => if s = "1" then some config1 else none
    probe := fun u =>
      if u = "https://online.fliphtml5.com/bk/files/large/a.webp" then Except.ok 200
      else Except.error ()
    fetch := fun u =>
      if u = "https://online.fliphtml5.com/bk/files/large/a.webp" then Except.ok (200, [[7]])
      else Except.error ()
    compress := fun bs => some bs
    convert := fun l => some l.flatten }

/-- Whether the probe of one candidate URL answers success: status 200.
Any other status, and a transport error, leave the candidate rejected. -/
def is_success (probe : String → Except Unit Nat) (u : String) : Bool :=
  match probe u with
  | Except.ok s => s == 200
  | Except.error _ => false

/-- A three-page manifest. -/
def config8 : Config := ⟨[⟨["g1.webp"]⟩, ⟨["g2.webp"]⟩, ⟨["g3.webp"]⟩], "Title"⟩

/-- Environment for `config8` where pages 0 and 2 resolve (first candidate)
and download, while every candidate of page 1 raises on the probe. -/
def envC8 : Env :=
  { response := Except.ok (200, "var c = 1;")
    parse := fun s => if s = "1" then some config8 else none
    probe := fun u =>
      if u = "https://online.fliphtml5.com/bk/files/large/g1.webp"
          ∨ u = "https://online.fliphtml5.com/bk/files/large/g3.webp" then Except.ok 200
      else Except.error ()
    fetch := fun u =>
      if u = "https://online.fliphtml5.com/bk/files/large/g1.webp" then
        Except.ok (200, [[1], [2]])
      else if u = "https://online.fliphtml5.com/bk/files/large/g3.webp" then
        Except.ok (200, [[3]])
      else Except.error ()
    compress := fun bs => some bs
    convert := fun l => some l.flatten }

/-!
Theorems.
-/

/-- The probing loop returns the first candidate whose probe succeeds. -/
theorem probe_loop_eq_find (probe : String → Except Unit Nat) (l : List String) :
    probe_loop probe l = l.find? (is_success probe) := by
  induction l with
  | nil => rfl
  | cons u rest ih =>
    cases hp : probe u with
    | ok s =>
      by_cases h2 : s = 200
      · subst h2
        simp [probe_loop, hp, is_success]
      · simp [probe_loop, hp, is_success, h2, ih]
    | error e =>
      simp [probe_loop, hp, is_success, ih]

/-- C6: for every book identifier and page descriptor, `find_page_url`
probes its fixed candidate URLs strictly in list order and returns the
first candidate whose existence check answers status 200; a transport
error on a candidate (like any non-200 status) is treated as not-found for
that candidate and the next is tried, and the resolver returns `none`
exactly when no candidate succeeds. -/
theorem find_page_url_first_success (probe : String → Except Unit Nat)
    (book_name : String) (page_info : PageInfo) :
    find_page_url probe book_name page_info
      = (url_options book_name page_info).find? (is_success probe) ∧
    (find_page_url probe book_name page_info = none ↔
      ∀ u ∈ url_options book_name page_info, is_success probe u = false) := by
  refine ⟨probe_loop_eq_find probe _, ?_⟩
  rw [find_page_url, probe_loop_eq_find]
  simp [List.find?_eq_none]

/-- C1 (counterexample): the source id `"a/b"` contains a character outside
the letters-and-digits charset, yet `start` answers 200 and creates the job
record — the route performs no charset check. -/
theorem start_no_charset_check :
    charset_ok "a/b" = false ∧ start (some "a/b") = (200, some (initial_job "a/b")) :=
  ⟨by decide, rfl⟩

/-- C1 (amended): a start request is rejected with status 400 and no job
record is created exactly when the caller-supplied `book_name` is absent or
empty; any non-empty value, whatever characters it contains, is accepted
and a job record is created. -/
theorem start_rejects_only_absent_or_empty (b : Option String) :
    ((start b).1 = 400 ∧ (start b).2 = none) ↔ (b = none ∨ b = some "") := by
  cases b with
  | none => simp [start]
  | some s =>
    by_cases hs : s = ""
    · subst hs; simp [start]
    · simp [start, hs]

/-- C10: the `/download` route answers with the identical 404 response —
same body text, same code — for an id absent from the registry and for a
known job whose `pdf_data` is not set; the two cases cannot be told apart
at this endpoint. -/
theorem download_not_found_indistinguishable (j : Job) (h : j.pdf_data = none) :
    download (some j) = download none ∧
    download none = DownloadResponse.notAvailable "PDF not available or job not found." 404 := by
  constructor
  · simp [download, h]
  · rfl

/-- Witness for the C10 theorem at a freshly created job. -/
theorem download_not_found_indistinguishable_witness :
    (initial_job "x").pdf_data = none ∧
      download (some (initial_job "x")) = download none :=
  ⟨rfl, (download_not_found_indistinguishable (initial_job "x") rfl).1⟩

/-- Every `download_page` call either resolves, downloads with status 200,
increments the counter and returns the pair carrying its own page index, or
returns `None` and does not increment. -/
theorem download_page_shape (env : Env) (b : String) (pi : PageInfo) :
    (∃ r, download_page env b pi = (some (pi.p, r), true)) ∨
      download_page env b pi = (none, false) := by
  cases hfind : find_page_url env.probe b pi with
  | none => exact Or.inr (by simp [download_page, hfind])
  | some url =>
    cases hfetch : env.fetch url with
    | error e => exact Or.inr (by simp [download_page, hfind, hfetch])
    | ok sc =>
      obtain ⟨st, chunks⟩ := sc
      by_cases hst : st = 200
      · subst hst
        exact Or.inl ⟨chunks.flatten, by simp [download_page, hfind, hfetch]⟩
      · exact Or.inr (by simp [download_page, hfind, hfetch, hst])

/-- C2: for every job record at every point in its lifetime, `pdf_data` is
set if and only if the job's status equals `"done"`: it is absent from
creation onward, and the only registry write that stores result bytes is
the one that also sets the status to `"done"` (app.py:137-141). -/
theorem pdf_iff_done (env : Env) (b : String) :
    ∀ j ∈ job_trace env b, (j.pdf_data ≠ none ↔ j.status = "done") := by
  intro j hj
  rw [job_trace, process_book] at hj
  cases hfj : fetch_json env.parse env.response with
  | error e =>
    rw [hfj] at hj
    simp only [List.mem_cons, List.not_mem_nil, or_false] at hj
    rcases hj with rfl | rfl | rfl
    · simp [initial_job]
    · simp [stage1, initial_job]
    · simp [stage1, initial_job]
  | ok config =>
    rw [hfj] at hj
    simp only [List.mem_cons, List.mem_append] at hj
    rcases hj with rfl | rfl | rfl | hj
    · simp [initial_job]
    · simp [stage1, initial_job]
    · simp [stage2, stage1, initial_job]
    rcases hj with hj | hj
    · rw [incr_states] at hj
      simp only [List.mem_map, List.mem_range] at hj
      obtain ⟨k, -, rfl⟩ := hj
      simp [stage2, stage1, initial_job]
    · split at hj
      · simp only [List.mem_singleton] at hj
        subst hj
        simp [stage3, stage2, stage1, initial_job]
      · split at hj
        · simp only [List.mem_cons, List.not_mem_nil, or_false] at hj
          rcases hj with rfl | rfl
          · simp [stage4, stage3, stage2, stage1, initial_job]
          · simp [stage4, stage3, stage2, stage1, initial_job]
        · split at hj
          · simp only [List.mem_cons, List.not_mem_nil, or_false] at hj
            rcases hj with rfl | rfl
            · simp [stage4, stage3, stage2, stage1, initial_job]
            · simp [stage4, stage3, stage2, stage1, initial_job]
          · simp only [List.mem_cons, List.not_mem_nil, or_false] at hj
            rcases hj with rfl | rfl
            · simp [stage4, stage3, stage2, stage1, initial_job]
            · simp [stage4, stage3, stage2, stage1, initial_job]

/-- Witness for the C2 theorem at the freshly created record of a job whose
manifest request fails. -/
theorem pdf_iff_done_witness :
    (initial_job "x").pdf_data ≠ none ↔ (initial_job "x").status = "done" :=
  pdf_iff_done envW "x" (initial_job "x") (by decide)

/-- When no page fetch produced a result, the sorted result list is empty
and the counter was never incremented. -/
theorem downloaded_all_none (env : Env) (b : String) (config : Config)
    (h : ∀ pi ∈ make_pages config.fliphtml5_pages, (download_page env b pi).1 = none) :
    sorted_pages_of env b config = [] ∧ increments_of env b config = 0 := by
  constructor
  · rw [sorted_pages_of]
    have hfm : (downloaded_of env b config).filterMap id = [] := by
      rw [List.filterMap_eq_nil_iff]
      intro a ha
      simp only [downloaded_of, results_of, List.map_map, List.mem_map,
        Function.comp] at ha
      obtain ⟨pi, hpi, rfl⟩ := ha
      exact h pi hpi
    rw [hfm]
    rfl
  · rw [increments_of, List.length_eq_zero, List.filter_eq_nil_iff]
    intro a ha
    simp only [results_of, List.mem_map] at ha
    obtain ⟨pi, hpi, rfl⟩ := ha
    rcases download_page_shape env b pi with ⟨r, hr⟩ | hr
    · have hno := h pi hpi
      rw [hr] at hno
      simp at hno
    · rw [hr]
      simp

/-- C4: for every job in which every dispatched page fetch returns no
result, the trace ends with the `"failed"` write and contains nothing else:
no `"preparing_pdf"` or `"done"` state ever appears, and the `/download`
route answers the not-available 404 at every point of the job's life. -/
theorem zero_pages_failed (env : Env) (b : String) (config : Config)
    (hcfg : fetch_json env.parse env.response = Except.ok config)
    (hnone : ∀ pi ∈ make_pages config.fliphtml5_pages, (download_page env b pi).1 = none) :
    job_trace env b = [initial_job b, stage1 (initial_job b), stage2 (initial_job b) config,
      { stage2 (initial_job b) config with status := "failed" }] ∧
    ∀ j ∈ job_trace env b, j.status ≠ "preparing_pdf" ∧ j.status ≠ "done" ∧
      download (some j) = DownloadResponse.notAvailable "PDF not available or job not found." 404 := by
  obtain ⟨hs, hm⟩ := downloaded_all_none env b config hnone
  have htr : job_trace env b = [initial_job b, stage1 (initial_job b),
      stage2 (initial_job b) config,
      { stage2 (initial_job b) config with status := "failed" }] := by
    simp only [job_trace, process_book, hcfg, hs, hm, incr_states, stage3,
      List.range_zero, List.map_nil, List.nil_append, if_pos, Nat.add_zero]
  refine ⟨htr, ?_⟩
  rw [htr]
  intro j hj
  simp only [List.mem_cons, List.not_mem_nil, or_false] at hj
  rcases hj with rfl | rfl | rfl | rfl
  · exact ⟨by simp [initial_job], by simp [initial_job], by simp [download, initial_job]⟩
  · exact ⟨by simp [stage1, initial_job], by simp [stage1, initial_job],
      by simp [download, stage1, initial_job]⟩
  · exact ⟨by simp [stage2, stage1, initial_job], by simp [stage2, stage1, initial_job],
      by simp [download, stage2, stage1, initial_job]⟩
  · exact ⟨by simp [stage2, stage1, initial_job], by simp [stage2, stage1, initial_job],
      by simp [download, stage2, stage1, initial_job]⟩

/-- Witness for the C4 theorem: under `envZ` the single page of `config1`
resolves to no URL, and the job's trace ends at the `"failed"` write. -/
theorem zero_pages_failed_witness :
    (download_page envZ "bk" ⟨["a.webp"], 0⟩).1 = none ∧
    job_trace envZ "bk" = [initial_job "bk", stage1 (initial_job "bk"),
      stage2 (initial_job "bk") config1,
      { stage2 (initial_job "bk") config1 with status := "failed" }] :=
  ⟨by decide, (zero_pages_failed envZ "bk" config1 (by decide) (by decide)).1⟩

/-- C5: any unhandled error in the pipeline after the manifest has loaded
and pages have been recovered — an image-decode failure inside the
compression loop, or a failure of the document assembler — is caught by the
outer handler (app.py:142-146): the trace ends with the `"failed"` write
and no state of the job's life ever carries result bytes. -/
theorem unhandled_error_failed (env : Env) (b : String) (config : Config)
    (hcfg : fetch_json env.parse env.response = Except.ok config)
    (hne : sorted_pages_of env b config ≠ [])
    (herr : compressed_of env b config = none ∨
      ∃ c, compressed_of env b config = some c ∧ env.convert c = none) :
    job_trace env b = initial_job b :: stage1 (initial_job b) :: stage2 (initial_job b) config ::
      (incr_states env b config (initial_job b) ++
        [stage4 env b config (initial_job b),
         { stage4 env b config (initial_job b) with status := "failed" }]) ∧
    ∀ j ∈ job_trace env b, j.pdf_data = none := by
  have htr : job_trace env b = initial_job b :: stage1 (initial_job b) ::
      stage2 (initial_job b) config ::
      (incr_states env b config (initial_job b) ++
        [stage4 env b config (initial_job b),
         { stage4 env b config (initial_job b) with status := "failed" }]) := by
    rcases herr with hc | ⟨c, hc, hv⟩
    · simp only [job_trace, process_book, hcfg, if_neg hne, hc]
    · simp only [job_trace, process_book, hcfg, if_neg hne, hc, hv]
  refine ⟨htr, ?_⟩
  rw [htr]
  intro j hj
  simp only [List.mem_cons, List.mem_append, List.not_mem_nil, or_false] at hj
  rcases hj with rfl | rfl | rfl | hj | rfl | rfl
  · simp [initial_job]
  · simp [stage1, initial_job]
  · simp [stage2, stage1, initial_job]
  · rw [incr_states] at hj
    simp only [List.mem_map, List.mem_range] at hj
    obtain ⟨k, -, rfl⟩ := hj
    simp [stage2, stage1, initial_job]
  · simp [stage4, stage3, stage2, stage1, initial_job]
  · simp [stage4, stage3, stage2, stage1, initial_job]

/-- Witness for the C5 theorem: under `envV` the single downloaded page
fails to decode, and the failed final state holds no result bytes. -/
theorem unhandled_error_failed_witness :
    compressed_of envV "bk" config1 = none ∧
    ({ stage4 envV "bk" config1 (initial_job "bk") with status := "failed" }).pdf_data = none :=
  ⟨by decide, (unhandled_error_failed envV "bk" config1 (by decide) (by decide)
      (Or.inl (by decide))).2 _ (by decide)⟩

/-- C7 (counterexample): a manifest response with the non-success status
404 whose body still contains the `'= '` delimiter and a parseable payload
is not treated as a manifest-load failure: the job under `envC7` never
enters `"failed"` and in fact finishes `"done"`, because `fetch_json`
never inspects the response status. -/
theorem manifest_nonsuccess_not_failed :
    envC7.response = Except.ok (404, "var c = 1;") ∧
    (∀ j ∈ job_trace envC7 "bk", j.status ≠ "failed") ∧
    (job_trace envC7 "bk").getLast!.status = "done" :=
  ⟨rfl, by decide, by decide⟩

/-- C7 (amended): a manifest load fails on any transport error or when the
payload lacks the `'= '` delimiter (but not merely on a non-success
status), and on such a failure the job's status is set to `"failed"`, the
state is terminal, and the orchestrator performs no other registry write
for the job. -/
theorem manifest_failure_terminal (env : Env) (b : String) :
    (∀ e : Unit, env.response = Except.error e →
      fetch_json env.parse env.response = Except.error e) ∧
    (∀ st text, env.response = Except.ok (st, text) → (py_split text "= ").drop 1 = [] →
      fetch_json env.parse env.response = Except.error ()) ∧
    (fetch_json env.parse env.response = Except.error () →
      job_trace env b = [initial_job b, stage1 (initial_job b),
        { stage1 (initial_job b) with status := "failed" }]) := by
  refine ⟨?_, ?_, ?_⟩
  · intro e he
    rw [he]
    rfl
  · intro st text he hsplit
    rw [he, fetch_json]
    simp only [hsplit]
  · intro h
    simp only [job_trace, process_book, h]

/-- Witness for the C7 amended theorem at `envW`, whose manifest request
raises a transport error. -/
theorem manifest_failure_terminal_witness :
    fetch_json envW.parse envW.response = Except.error () ∧
    job_trace envW "x" = [initial_job "x", stage1 (initial_job "x"),
      { stage1 (initial_job "x") with status := "failed" }] :=
  ⟨by decide, (manifest_failure_terminal envW "x").2.2 (by decide)⟩

/-- The positional indices assigned by the enumeration loop form the
interval starting at `k`. -/
theorem map_p_make_pages_from (k : Nat) (l : List PageData) :
    (make_pages_from k l).map PageInfo.p = List.range' k l.length := by
  induction l generalizing k with
  | nil => rfl
  | cons pd rest ih =>
    simp only [make_pages_from, List.map_cons, List.length_cons, List.range'_succ]
    rw [ih]

/-- Keys of a filterMap whose results carry their input's key form a
sublist of the input keys. -/
theorem filterMap_fst_sublist (f : PageInfo → Option (Nat × Bytes))
    (hf : ∀ pi r, f pi = some r → r.1 = pi.p) :
    ∀ l : List PageInfo, ((l.filterMap f).map Prod.fst).Sublist (l.map PageInfo.p)
  | [] => by simp
  | pi :: rest => by
    cases hr : f pi with
    | none =>
      simp only [List.filterMap_cons, hr, List.map_cons]
      exact (filterMap_fst_sublist f hf rest).cons _
    | some r =>
      simp only [List.filterMap_cons, hr, List.map_cons, hf pi r hr]
      exact (filterMap_fst_sublist f hf rest).cons₂ _

/-- Dropping the `None` slots of the gather result is the same as
filter-mapping the page list through the fetch. -/
theorem downloaded_filterMap_eq (env : Env) (b : String) (config : Config) :
    (downloaded_of env b config).filterMap id =
      (make_pages config.fliphtml5_pages).filterMap
        (fun pi => (download_page env b pi).1) := by
  rw [downloaded_of, results_of, List.map_map, List.filterMap_map]
  rfl

/-- The surviving page indices of the gather result are already strictly
increasing, because each task can only return its own manifest index. -/
theorem downloaded_fst_sorted (env : Env) (b : String) (config : Config) :
    (((downloaded_of env b config).filterMap id).map Prod.fst).Sorted (· < ·) := by
  rw [downloaded_filterMap_eq]
  have hsub := filterMap_fst_sublist (fun pi => (download_page env b pi).1)
    (fun pi r hr => by
      have hr' : (download_page env b pi).1 = some r := hr
      rcases download_page_shape env b pi with ⟨rr, hrr⟩ | hrr
      · rw [hrr] at hr'
        simp only [Option.some.injEq] at hr'
        rw [← hr']
      · rw [hrr] at hr'
        simp at hr')
    (make_pages config.fliphtml5_pages)
  have hp : ((make_pages config.fliphtml5_pages).map PageInfo.p).Pairwise (· < ·) := by
    rw [make_pages, map_p_make_pages_from]
    exact List.pairwise_lt_range' 0 _
  exact List.Pairwise.sublist hsub hp

/-- Sorting by the page index yields strictly increasing indices whenever
the input indices are distinct. -/
theorem sort_pages_sorted_of_nodup (l : List (Nat × Bytes))
    (h : (l.map Prod.fst).Nodup) :
    ((sort_pages l).map Prod.fst).Sorted (· < ·) := by
  have hperm : (sort_pages l).Perm l := List.perm_insertionSort pageLE l
  have h2 : ((sort_pages l).map Prod.fst).Nodup := ((hperm.map Prod.fst).nodup_iff).mpr h
  have h3 : List.Sorted pageLE (sort_pages l) := List.sorted_insertionSort pageLE l
  have h4 : ((sort_pages l).map Prod.fst).Sorted (· ≤ ·) :=
    List.Pairwise.map _ (fun _ _ hab => hab) h3
  exact h4.lt_of_le h2

/-- With distinct page indices the sorted output is the same for every
permutation of the input: completion order cannot influence it. -/
theorem sort_pages_perm_invariant (l l' : List (Nat × Bytes))
    (h : (l.map Prod.fst).Nodup) (hp : l'.Perm l) :
    sort_pages l' = sort_pages l := by
  have h' : (l'.map Prod.fst).Nodup := ((hp.map Prod.fst).nodup_iff).mpr h
  have t1 : List.Sorted pageLT (sort_pages l) := by
    have hs := List.pairwise_map.mp (sort_pages_sorted_of_nodup l h)
    exact hs
  have t2 : List.Sorted pageLT (sort_pages l') := by
    have hs := List.pairwise_map.mp (sort_pages_sorted_of_nodup l' h')
    exact hs
  exact List.eq_of_perm_of_sorted
    (((List.perm_insertionSort pageLE l').trans hp).trans
      (List.perm_insertionSort pageLE l).symm) t2 t1

/-- C3: for every manifest and every outcome of the concurrent page
fetches, the list handed to normalization and assembly is sorted by page
index in strictly ascending order with no duplicate indices; and because
surviving indices are distinct, every permutation of the gathered results
— that is, every completion order — sorts to the identical list, so the
final document's page order is the manifest's index order. -/
theorem sorted_pages_ordered (env : Env) (b : String) (config : Config) :
    ((sorted_pages_of env b config).map Prod.fst).Sorted (· < ·) ∧
    ((sorted_pages_of env b config).map Prod.fst).Nodup ∧
    ∀ l', l'.Perm ((downloaded_of env b config).filterMap id) →
      sort_pages l' = sorted_pages_of env b config := by
  have hnd : (((downloaded_of env b config).filterMap id).map Prod.fst).Nodup :=
    (downloaded_fst_sorted env b config).nodup
  refine ⟨sort_pages_sorted_of_nodup _ hnd, ?_, ?_⟩
  · exact (((List.perm_insertionSort pageLE _).map Prod.fst).nodup_iff).mpr hnd
  · intro l' hp
    exact sort_pages_perm_invariant _ l' hnd hp

/-- Witness for the C3 theorem: under `envC8` the two surviving pages of
`config8`, fed in reversed completion order, sort to the job's sorted page
list. -/
theorem sorted_pages_ordered_witness :
    sort_pages [((2 : Nat), ([3] : Bytes)), (0, [1, 2])] = sorted_pages_of envC8 "bk" config8 :=
  (sorted_pages_ordered envC8 "bk" config8).2.2 _ (by decide)

/-- C8: for the three-page manifest `config8` under `envC8`, where page 1
resolves to no URL and pages 0 and 2 download, the job's sorted result
holds exactly the two pages `[0, 2]` in that order, only those two tasks
increment the counter (once each), and the finished job reports
`done = 2`, status `"done"`, and the document assembled from pages 0 and 2
in order. -/
theorem partial_success_two_pages :
    (results_of envC8 "bk" config8).map Prod.fst = [some (0, [1, 2]), none, some (2, [3])] ∧
    (results_of envC8 "bk" config8).map Prod.snd = [true, false, true] ∧
    sorted_pages_of envC8 "bk" config8 = [(0, [1, 2]), (2, [3])] ∧
    job_trace envC8 "bk" = [initial_job "bk", stage1 (initial_job "bk"),
      stage2 (initial_job "bk") config8,
      { stage2 (initial_job "bk") config8 with done := 1 },
      { stage2 (initial_job "bk") config8 with done := 2 },
      { stage2 (initial_job "bk") config8 with done := 2, status := "preparing_pdf" },
      { stage2 (initial_job "bk") config8 with
          done := 2
          status := "done"
          pdf_data := some [1, 2, 3] }] ∧
    (job_trace envC8 "bk").getLast!.done = 2 ∧
    (job_trace envC8 "bk").getLast!.status = "done" ∧
    (job_trace envC8 "bk").getLast!.pdf_data = some ([1, 2] ++ [3]) := by
  refine ⟨by decide, by decide, by decide, by decide, by decide, by decide, by decide⟩

/-- C9 (counterexample): the gate check and the chunk read are separate
awaited steps, and the `/pause` route runs on another thread, so the event
can be cleared between the wait returning and the read executing.  The
interleaving `wait-returns, gate-closes, chunk-read` is valid from the
initial state, and its third event — a chunk read — executes in a state
whose gate is closed: the fetcher does read a body chunk while the pause
gate is closed. -/
theorem pause_read_race :
    states_before init_loop [Ev.waitReturn, Ev.gateClose, Ev.readChunk] =
      some [⟨true, Pc.atWait⟩, ⟨true, Pc.atRead⟩, ⟨false, Pc.atRead⟩] ∧
    exec init_loop [Ev.waitReturn, Ev.gateClose, Ev.readChunk] =
      some ⟨false, Pc.atWait⟩ ∧
    [Ev.waitReturn, Ev.gateClose, Ev.readChunk].getD 2 Ev.gateOpen = Ev.readChunk ∧
    (⟨false, Pc.atRead⟩ : LoopState).gate = false :=
  ⟨by decide, by decide, by decide, by decide⟩

/-- While the gate stays closed, the wait can never return, so the fetcher
reads at most the one chunk whose gate check had already passed. -/
theorem closed_gate_read_bound (evs : List Ev) :
    ∀ s s' : LoopState, s.gate = false → exec s evs = some s' →
      Ev.gateOpen ∉ evs → evs.count Ev.readChunk ≤ read_budget s.pc := by
  induction evs with
  | nil =>
    intro s s' _ _ _
    simp
  | cons e es ih =>
    intro s s' hg hx hno
    have hno' : Ev.gateOpen ∉ es := fun h => hno (List.mem_cons_of_mem _ h)
    cases e with
    | waitReturn =>
      rw [exec] at hx
      simp [stepEv, hg] at hx
    | readChunk =>
      rw [exec] at hx
      by_cases hpc : s.pc = Pc.atRead
      · simp only [stepEv, if_pos hpc] at hx
        have hb := ih { s with pc := Pc.atWait } s' hg hx hno'
        simp only [read_budget] at hb
        rw [List.count_cons_self, hpc]
        simp only [read_budget]
        omega
      · simp only [stepEv, if_neg hpc] at hx
        simp at hx
    | gateClose =>
      rw [exec] at hx
      simp only [stepEv] at hx
      have hb := ih { s with gate := false } s' rfl hx hno'
      rw [List.count_cons_of_ne (by decide)]
      exact hb
    | gateOpen =>
      exact absurd (List.mem_cons_self _ _) hno

/-- C9 (amended): before each chunk read the fetcher waits until the pause
gate is open, but the check and the read are not atomic, so a pause takes
effect within one chunk rather than instantly: in any valid interleaving
reached by a prior execution, once the gate closes and until it is set
again, at most one further chunk is read. -/
theorem pause_within_one_chunk (s s' : LoopState) (evs1 evs2 : List Ev)
    (_hreach : exec init_loop evs1 = some s)
    (h2 : exec s (Ev.gateClose :: evs2) = some s')
    (hno : Ev.gateOpen ∉ evs2) :
    evs2.count Ev.readChunk ≤ 1 := by
  rw [exec] at h2
  simp only [stepEv] at h2
  have hb := closed_gate_read_bound evs2 { s with gate := false } s' rfl h2 hno
  refine hb.trans ?_
  cases hpc : ({ s with gate := false } : LoopState).pc <;> simp [read_budget, hpc]

/-- Witness for the C9 amended theorem: after the wait has returned, a
pause followed by the in-flight chunk read is a valid interleaving, and
that one read meets the bound. -/
theorem pause_within_one_chunk_witness :
    exec init_loop [Ev.waitReturn] = some ⟨true, Pc.atRead⟩ ∧
    exec ⟨true, Pc.atRead⟩ (Ev.gateClose :: [Ev.readChunk]) = some ⟨false, Pc.atWait⟩ ∧
    [Ev.readChunk].count Ev.readChunk ≤ 1 :=
  ⟨by decide, by decide,
    pause_within_one_chunk ⟨true, Pc.atRead⟩ ⟨false, Pc.atWait⟩
      [Ev.waitReturn] [Ev.readChunk] (by decide) (by decide) (by decide)⟩
